import Mathlib

/-!
Verification development for the RockAuto scraping client
(`src/rockauto_api/client/client.py`) and its thin HTTP proxy
(`src/app/api/search.py`, `src/app/utils/rockauto.py`,
`src/app/utils/exchanger.py`).

The Python code is shallowly embedded: network responses are injected as
explicit values (`Except` for fallible HTTP exchanges), BeautifulSoup
documents are abstracted to the elements the code actually queries, and
Python exceptions become `Except String` / `Option` results.  Python string
operations (`.lower()`, `.strip()`, `.replace()`) are modelled with their
Lean counterparts, faithful on the ASCII inputs that occur here.
-/

namespace RockAuto

/-! ## Python string primitives

Counterparts of the Python string operations the code uses, implemented by
structural recursion over the character list of a `String` so that every
definition evaluates inside the kernel.  They agree with Python's
`str.strip` / `str.replace` / `str.startswith` / `str.lower` / `in` on the
ASCII data handled by this program. -/

/-- Whitespace characters recognised by Python's `str.strip` (ASCII part). -/
def isPySpace (c : Char) : Bool :=
  c == ' ' || c == '\t' || c == '\n' || c == '\r' || c == '\x0b' || c == '\x0c'

/-- Python `str.strip()`. -/
def pyStrip (s : String) : String :=
  ⟨((s.data.dropWhile isPySpace).reverse.dropWhile isPySpace).reverse⟩

/-- Python `s.startswith(p)`. -/
def pyStartsWith (s p : String) : Bool :=
  p.data.isPrefixOf s.data

/-- Python `c in s` for a single character `c`. -/
def pyContainsChar (s : String) (c : Char) : Bool :=
  s.data.contains c

/-- Python `str.lower()` (ASCII case folding, enough for the labels and
the literal `"all"` compared here). -/
def pyLower (s : String) : String :=
  ⟨s.data.map Char.toLower⟩

/-- Fuel-indexed scanner behind `pyReplace`; the fuel is the length of the
scanned list, which bounds the number of recursive steps. -/
def replaceFuel (pat rep : List Char) : Nat → List Char → List Char
  | _, [] => []
  | 0, l => l
  | fuel + 1, c :: cs =>
    if pat ≠ [] ∧ pat.isPrefixOf (c :: cs) then
      rep ++ replaceFuel pat rep fuel ((c :: cs).drop pat.length)
    else
      c :: replaceFuel pat rep fuel cs

/-- Python `s.replace(pat, rep)` for a non-empty `pat`: replace every
non-overlapping occurrence, scanning left to right. -/
def pyReplace (s pat rep : String) : String :=
  ⟨replaceFuel pat.data rep.data s.data.length s.data⟩

/-! ## Result extractor (`_extract_part_from_search_row`, `_parse_parts_search_results`)

A `Row` abstracts one `div[id^=listingcontainer]` element: each field holds
the result of the corresponding `table.find(...)` query in
`_extract_part_from_search_row`.  `none` means the element was not found.
A found BeautifulSoup `Tag` is always truthy (`Tag.__bool__` returns
`True`), so a found element is modelled by `some text`.
The image is `Option (Option String)`: the outer layer is whether the
`img` tag was found, the inner layer whether it carries a `src` attribute —
`part_img['src']` on an `img` without `src` raises `KeyError`, the only
statement in the `try` block that can raise, sending the row to the
`except` branch which returns `None`. -/
structure Row where
  link_href : Option String
  name_text : Option String
  brand_text : Option String
  price_text : Option String
  partnum_text : Option String
  img : Option (Option String)
deriving Repr, DecidableEq

/-- Field-for-field embedding of the `PartInfo` record as constructed at the
end of `_extract_part_from_search_row` (the model class itself lives in
`rockauto_api.models`; only the fields passed at this construction site
matter here). -/
structure PartInfo where
  name : String
  part_number : Option String
  brand : String
  price : String
  url : String
  specifications : String
  image_url : Option String
deriving Repr, DecidableEq

/-- Body of the `try` block of `_extract_part_from_search_row` on the
non-raising path: href absolutization, `Info` suffix stripping for the
name, `"Unknown"` defaults for name/brand, `"0"` default for price, raw
optional part number, absolutized thumbnail URL. -/
def extractTotal (r : Row) : PartInfo :=
  let href : String :=
    match r.link_href with
    | none => ""
    | some h => if h ≠ "" ∧ ¬ pyStartsWith h "http" then "https://www.rockauto.com" ++ h else h
  let part_img : Option String :=
    match r.img with
    | some (some src) => some ("https://www.rockauto.com" ++ src)
    | _ => none
  { name :=
      match r.name_text with
      | some n => if n ≠ "" then pyStrip (pyReplace n "Info" "") else "Unknown"
      | none => "Unknown"
    part_number := r.partnum_text
    brand :=
      match r.brand_text with
      | some b => if b ≠ "" then pyStrip b else "Unknown"
      | none => "Unknown"
    price :=
      match r.price_text with
      | some p => if p ≠ "" then pyStrip p else "0"
      | none => "0"
    url := href
    specifications := "\x7b\x7d"
    image_url := part_img }

/-- Embedding of `_extract_part_from_search_row`: the only raising statement
in the `try` block is `part_img['src']` (an `img` element found without a
`src` attribute), in which case the `except` branch returns `None`;
otherwise the constructed `PartInfo` is returned. -/
def _extract_part_from_search_row (r : Row) : Option PartInfo :=
  match r.img with
  | some none => none
  | _ => some (extractTotal r)

/-- Embedding of `_parse_parts_search_results`: the document is abstracted
to the ordered list of listing containers matched by
`id=re.compile(r'^listingcontainer\[\d+\]$')`; each is extracted and the
result appended when non-`None` (a `PartInfo` object is always truthy). -/
def _parse_parts_search_results (rows : List Row) : List PartInfo :=
  rows.filterMap _extract_part_from_search_row

/-- A row is well formed when its extraction raises no exception, i.e. it
has no `img` element lacking a `src` attribute. -/
def wellFormedRow (r : Row) : Prop := r.img ≠ some none

instance (r : Row) : Decidable (wellFormedRow r) := by
  unfold wellFormedRow; infer_instance

theorem extract_eq_total (r : Row) (h : wellFormedRow r) :
    _extract_part_from_search_row r = some (extractTotal r) := by
  unfold _extract_part_from_search_row
  match hi : r.img with
  | none => rfl
  | some none => exact absurd hi h
  | some (some _) => rfl

/-- C2: for a document of N well-formed listing containers the extractor
returns exactly N records, one per container in document order; an empty
document yields the empty list, not an error. -/
theorem c2_extract_count_and_order (rows : List Row) :
    ((∀ r ∈ rows, wellFormedRow r) →
      _parse_parts_search_results rows = rows.map extractTotal ∧
      (_parse_parts_search_results rows).length = rows.length) ∧
    _parse_parts_search_results [] = [] := by
  constructor
  · intro h
    have hmap : _parse_parts_search_results rows = rows.map extractTotal := by
      unfold _parse_parts_search_results
      induction rows with
      | nil => rfl
      | cons a as ih =>
        have ha : wellFormedRow a := h a (List.mem_cons_self a as)
        have has : ∀ r ∈ as, wellFormedRow r := fun r hr => h r (List.mem_cons_of_mem a hr)
        simp [List.filterMap_cons, extract_eq_total a ha, ih has]
    exact ⟨hmap, by rw [hmap]; exact List.length_map rows extractTotal⟩
  · rfl

/-- Sample well-formed rows used by witnesses. -/
def demoRow : Row :=
  { link_href := some "/x", name_text := some "Water Pump Info",
    brand_text := some "DOLZ", price_text := some "$10.00",
    partnum_text := some "W123", img := none }

/-- Sample row missing brand, name and price elements. -/
def bareRow : Row :=
  { link_href := none, name_text := none, brand_text := none,
    price_text := none, partnum_text := none, img := none }

theorem c2_extract_count_and_order_witness :
    _parse_parts_search_results [demoRow, bareRow] =
      [demoRow, bareRow].map extractTotal ∧
    (_parse_parts_search_results [demoRow, bareRow]).length = 2 :=
  (c2_extract_count_and_order [demoRow, bareRow]).1 (by decide)

/-- C3: a well-formed row missing its brand, name, price, part-number or
link element still yields a record, with defaults `"Unknown"`, `"Unknown"`,
`"0"`, `none` and `""` respectively, and extraction of the sibling rows of
the same document is unaffected. -/
theorem c3_missing_fields_default (r : Row) (h : wellFormedRow r) :
    _extract_part_from_search_row r = some (extractTotal r) ∧
    (r.brand_text = none → (extractTotal r).brand = "Unknown") ∧
    (r.name_text = none → (extractTotal r).name = "Unknown") ∧
    (r.price_text = none → (extractTotal r).price = "0") ∧
    (r.partnum_text = none → (extractTotal r).part_number = none) ∧
    (r.link_href = none → (extractTotal r).url = "") ∧
    (∀ pre post : List Row,
      _parse_parts_search_results (pre ++ r :: post) =
        _parse_parts_search_results pre ++
          extractTotal r :: _parse_parts_search_results post) := by
  refine ⟨extract_eq_total r h, ?_, ?_, ?_, ?_, ?_, ?_⟩
  · intro hb; simp [extractTotal, hb]
  · intro hn; simp [extractTotal, hn]
  · intro hp; simp [extractTotal, hp]
  · intro hq; simp [extractTotal, hq]
  · intro hl; simp [extractTotal, hl]
  · intro pre post
    unfold _parse_parts_search_results
    rw [List.filterMap_append, List.filterMap_cons, extract_eq_total r h]

theorem c3_missing_fields_default_witness :
    (extractTotal bareRow).brand = "Unknown" ∧
    (extractTotal bareRow).name = "Unknown" ∧
    (extractTotal bareRow).price = "0" ∧
    _parse_parts_search_results ([demoRow] ++ bareRow :: [demoRow]) =
      _parse_parts_search_results [demoRow] ++
        extractTotal bareRow :: _parse_parts_search_results [demoRow] := by
  have h := c3_missing_fields_default bareRow (by decide)
  exact ⟨h.2.1 rfl, h.2.2.1 rfl, h.2.2.2.1 rfl, h.2.2.2.2.2.2 [demoRow] [demoRow]⟩

/-! ## Session manager (`_initialize_session`, `_generate_jnck_token`)

The two token regexes of `_initialize_session` are
`window\._nck\s*=\s*"([^"]+)"` and, as fallback,
`parent\.window\._nck\s*=\s*"([^"]+)"`.  They share the tail
`\s*=\s*"([^"]+)"` after a literal, so `re.search` is embedded as a
leftmost scan (`searchPat`) that tries the literal at every position and
then matches the tail; the greedy `[^"]+` capture is exactly
`takeWhile (· != '"')` followed by a closing quote. -/

/-- Match a literal character sequence at the head of the input, returning
the remainder on success. -/
def dropLit : List Char → List Char → Option (List Char)
  | [], rest => some rest
  | _ :: _, [] => none
  | p :: ps, c :: cs => if p = c then dropLit ps cs else none

/-- Skip `\s*` (ASCII whitespace, as in `re` for the data at hand). -/
def skipWs : List Char → List Char
  | [] => []
  | c :: cs => if isPySpace c then skipWs cs else c :: cs

/-- Continuation of the token regexes after their literal part: match
`\s*=\s*"([^"]+)"` and return the capture group. -/
def matchNckTail (cs : List Char) : Option String :=
  match skipWs cs with
  | '=' :: cs1 =>
    match skipWs cs1 with
    | '"' :: cs2 =>
      let tok := cs2.takeWhile (fun c => c != '"')
      if tok = [] then none
      else
        match cs2.drop tok.length with
        | '"' :: _ => some ⟨tok⟩
        | _ => none
    | _ => none
  | _ => none

/-- Leftmost search for `lit` followed by `\s*=\s*"([^"]+)"`, the model of
`re.search` for the two token patterns. -/
def searchPat (lit : List Char) : List Char → Option String
  | [] => (dropLit lit []).bind matchNckTail
  | c :: rest =>
    match (dropLit lit (c :: rest)).bind matchNckTail with
    | some t => some t
    | none => searchPat lit rest

def nckPrimaryLit : List Char := "window._nck".data

def nckParentLit : List Char := "parent.window._nck".data

/-- Token extraction of `_initialize_session`: primary pattern first, then
the `parent.` fallback. -/
def extractNck (html : String) : Option String :=
  match searchPat nckPrimaryLit html.data with
  | some t => some t
  | none => searchPat nckParentLit html.data

/-- Session-level state of the client: the `_nck_token` and
`_session_initialized` fields set in `__init__` and mutated only by
`_initialize_session`. -/
structure SessionState where
  nck_token : Option String
  session_initialized : Bool
deriving Repr, DecidableEq

/-- State of a freshly constructed client. -/
def freshSession : SessionState := ⟨none, false⟩

/-- Outcome of the landing-page GET (including `raise_for_status`). -/
inductive FetchOutcome
  | ok (html : String)
  | failed
deriving Repr, DecidableEq

/-- Embedding of `_initialize_session`.  The returned `Bool` records
whether a landing-page fetch was performed.  A failed fetch is swallowed by
the `except` branch, which still sets `_session_initialized = True`; when
neither regex matches, `_nck_token` is left unchanged.  The function is
total: it never fails. -/
def _initialize_session (st : SessionState) (fetch : FetchOutcome) :
    SessionState × Bool :=
  if st.session_initialized then (st, false)
  else
    match fetch with
    | .ok html =>
      (⟨match extractNck html with
        | some t => some t
        | none => st.nck_token, true⟩, true)
    | .failed => (⟨st.nck_token, true⟩, true)

/-- UTF-8 encoding of one code point, as `urllib.parse.quote` applies it
before percent-escaping. -/
def utf8Bytes (c : Char) : List Nat :=
  let n := c.toNat
  if n < 0x80 then [n]
  else if n < 0x800 then [0xC0 + n / 0x40, 0x80 + n % 0x40]
  else if n < 0x10000 then [0xE0 + n / 0x1000, 0x80 + n / 0x40 % 0x40, 0x80 + n % 0x40]
  else [0xF0 + n / 0x40000, 0x80 + n / 0x1000 % 0x40, 0x80 + n / 0x40 % 0x40, 0x80 + n % 0x40]

/-- Bytes `urllib.parse.quote` leaves unescaped with `safe=''`:
letters, digits, `_`, `.`, `-`, `~`. -/
def isUrlSafeByte (b : Nat) : Bool :=
  (65 ≤ b && b ≤ 90) || (97 ≤ b && b ≤ 122) || (48 ≤ b && b ≤ 57) ||
  b == 95 || b == 46 || b == 45 || b == 126

def hexDigitChar (n : Nat) : Char :=
  if n < 10 then Char.ofNat (48 + n) else Char.ofNat (55 + n)

def quoteByteChars (b : Nat) : List Char :=
  if isUrlSafeByte b then [Char.ofNat b]
  else ['%', hexDigitChar (b / 16), hexDigitChar (b % 16)]

/-- Embedding of `urllib.parse.quote(s, safe='')`. -/
def pyQuote (s : String) : String :=
  ⟨(s.data.flatMap utf8Bytes).flatMap quoteByteChars⟩

/-- Embedding of `_generate_jnck_token`: empty for a missing (or empty,
hence falsy) token, otherwise `&_jnck=` plus the URL-escaped token.  Total,
hence never raises. -/
def _generate_jnck_token (tok : Option String) : String :=
  match tok with
  | none => ""
  | some t => if t = "" then "" else "&_jnck=" ++ pyQuote t

theorem dropLit_self (p rest : List Char) : dropLit p (p ++ rest) = some rest := by
  induction p with
  | nil => rfl
  | cons a ps ih => simp [dropLit, ih]

theorem takeWhile_ne_quote (t rest : List Char) (h : ∀ c ∈ t, c ≠ '"') :
    (t ++ '"' :: rest).takeWhile (fun c => c != '"') = t := by
  induction t with
  | nil => simp [List.takeWhile]
  | cons a ts ih =>
    have ha : a ≠ '"' := h a (List.mem_cons_self a ts)
    have hts : ∀ c ∈ ts, c ≠ '"' := fun c hc => h c (List.mem_cons_of_mem a hc)
    simp [List.takeWhile_cons, ha, ih hts]

theorem matchNckTail_std (t rest : List Char) (hne : t ≠ []) (h : ∀ c ∈ t, c ≠ '"') :
    matchNckTail (' ' :: '=' :: ' ' :: '"' :: (t ++ '"' :: rest)) = some ⟨t⟩ := by
  have htw := takeWhile_ne_quote t rest h
  have hdrop : (t ++ '"' :: rest).drop t.length = '"' :: rest := List.drop_left t _
  simp [matchNckTail, skipWs, isPySpace, htw, hdrop, hne]

theorem searchPat_skip (c : Char) (cs : List Char) (hc : c ≠ 'w') :
    searchPat nckPrimaryLit (c :: cs) = searchPat nckPrimaryLit cs := by
  have e : nckPrimaryLit = 'w' :: "indow._nck".data := rfl
  have hd : dropLit nckPrimaryLit (c :: cs) = none := by
    rw [e]
    simp only [dropLit]
    rw [if_neg (fun h => hc h.symm)]
  simp [searchPat, hd]

theorem searchPat_hit (rest : List Char) (tok : String)
    (h : matchNckTail rest = some tok) :
    searchPat nckPrimaryLit
      ('w' :: 'i' :: 'n' :: 'd' :: 'o' :: 'w' :: '.' :: '_' :: 'n' :: 'c' :: 'k' :: rest) =
      some tok := by
  have hd : dropLit nckPrimaryLit
      ('w' :: 'i' :: 'n' :: 'd' :: 'o' :: 'w' :: '.' :: '_' :: 'n' :: 'c' :: 'k' :: rest) =
      some rest := dropLit_self nckPrimaryLit rest
  simp [searchPat, hd, h]

/-- Landing page whose script content carries the primary token pattern. -/
def primaryPage (t : String) : String :=
  "<script>window._nck = \"" ++ t ++ "\";</script>"

/-- Landing page carrying only the parent/fallback token pattern. -/
def parentPage (t : String) : String :=
  "<script>parent.window._nck = \"" ++ t ++ "\";</script>"

/-- Landing page containing neither token pattern. -/
def neitherPage : String := "<html><body>no token here</body></html>"

theorem extractNck_primaryPage (t : String) (hne : t ≠ "")
    (h : ∀ c ∈ t.data, c ≠ '"') :
    extractNck (primaryPage t) = some t := by
  have hdne : t.data ≠ [] := by
    intro hd; apply hne; cases t; simp_all
  have hdata : (primaryPage t).data =
      '<' :: 's' :: 'c' :: 'r' :: 'i' :: 'p' :: 't' :: '>' ::
      'w' :: 'i' :: 'n' :: 'd' :: 'o' :: 'w' :: '.' :: '_' :: 'n' :: 'c' :: 'k' ::
      ' ' :: '=' :: ' ' :: '"' :: (t.data ++ '"' :: ";</script>".data) := by
    show ("<script>window._nck = \"" ++ t ++ "\";</script>").data = _
    rw [String.data_append, String.data_append]
    simp [List.cons_append]
  have hmt : matchNckTail (' ' :: '=' :: ' ' :: '"' :: (t.data ++ '"' :: ";</script>".data)) =
      some ⟨t.data⟩ := matchNckTail_std t.data _ hdne h
  have hsp : searchPat nckPrimaryLit (primaryPage t).data = some ⟨t.data⟩ := by
    rw [hdata]
    rw [searchPat_skip '<' _ (by decide), searchPat_skip 's' _ (by decide),
        searchPat_skip 'c' _ (by decide), searchPat_skip 'r' _ (by decide),
        searchPat_skip 'i' _ (by decide), searchPat_skip 'p' _ (by decide),
        searchPat_skip 't' _ (by decide), searchPat_skip '>' _ (by decide)]
    exact searchPat_hit _ _ hmt
  have heta : (⟨t.data⟩ : String) = t := rfl
  simp [extractNck, hsp, heta]

theorem extractNck_parentPage (t : String) (hne : t ≠ "")
    (h : ∀ c ∈ t.data, c ≠ '"') :
    extractNck (parentPage t) = some t := by
  have hdne : t.data ≠ [] := by
    intro hd; apply hne; cases t; simp_all
  have hdata : (parentPage t).data =
      '<' :: 's' :: 'c' :: 'r' :: 'i' :: 'p' :: 't' :: '>' ::
      'p' :: 'a' :: 'r' :: 'e' :: 'n' :: 't' :: '.' ::
      'w' :: 'i' :: 'n' :: 'd' :: 'o' :: 'w' :: '.' :: '_' :: 'n' :: 'c' :: 'k' ::
      ' ' :: '=' :: ' ' :: '"' :: (t.data ++ '"' :: ";</script>".data) := by
    show ("<script>parent.window._nck = \"" ++ t ++ "\";</script>").data = _
    rw [String.data_append, String.data_append]
    simp [List.cons_append]
  have hmt : matchNckTail (' ' :: '=' :: ' ' :: '"' :: (t.data ++ '"' :: ";</script>".data)) =
      some ⟨t.data⟩ := matchNckTail_std t.data _ hdne h
  have hsp : searchPat nckPrimaryLit (parentPage t).data = some ⟨t.data⟩ := by
    rw [hdata]
    rw [searchPat_skip '<' _ (by decide), searchPat_skip 's' _ (by decide),
        searchPat_skip 'c' _ (by decide), searchPat_skip 'r' _ (by decide),
        searchPat_skip 'i' _ (by decide), searchPat_skip 'p' _ (by decide),
        searchPat_skip 't' _ (by decide), searchPat_skip '>' _ (by decide),
        searchPat_skip 'p' _ (by decide), searchPat_skip 'a' _ (by decide),
        searchPat_skip 'r' _ (by decide), searchPat_skip 'e' _ (by decide),
        searchPat_skip 'n' _ (by decide), searchPat_skip 't' _ (by decide),
        searchPat_skip '.' _ (by decide)]
    exact searchPat_hit _ _ hmt
  have heta : (⟨t.data⟩ : String) = t := rfl
  simp [extractNck, hsp, heta]

/-- C6: a landing page with the primary token pattern makes
`_initialize_session` store exactly that token; a page with only the
parent/fallback pattern makes it store the fallback value; a page with
neither leaves the token `None`; `_generate_jnck_token` is empty when no
token is held and otherwise the URL-escaped token parameter (and, being a
total function, never raises). -/
theorem c6_token_extraction_and_bypass :
    (∀ t : String, t ≠ "" → (∀ c ∈ t.data, c ≠ '"') →
      (_initialize_session freshSession (.ok (primaryPage t))).1.nck_token = some t ∧
      (_initialize_session freshSession (.ok (parentPage t))).1.nck_token = some t) ∧
    (_initialize_session freshSession (.ok neitherPage)).1.nck_token = none ∧
    _generate_jnck_token none = "" ∧
    (∀ t : String, t ≠ "" → _generate_jnck_token (some t) = "&_jnck=" ++ pyQuote t) := by
  refine ⟨?_, ?_, rfl, ?_⟩
  · intro t hne h
    constructor
    · simp [_initialize_session, freshSession, extractNck_primaryPage t hne h]
    · simp [_initialize_session, freshSession, extractNck_parentPage t hne h]
  · decide
  · intro t hne
    simp [_generate_jnck_token, hne]

theorem c6_token_extraction_and_bypass_witness :
    (_initialize_session freshSession (.ok (primaryPage "ABC 123"))).1.nck_token =
      some "ABC 123" ∧
    (_initialize_session freshSession (.ok (parentPage "ABC 123"))).1.nck_token =
      some "ABC 123" ∧
    _generate_jnck_token (some "ABC 123") = "&_jnck=" ++ pyQuote "ABC 123" ∧
    pyQuote "ABC 123" = "ABC%20123" := by
  have h := c6_token_extraction_and_bypass
  have h1 := h.1 "ABC 123" (by decide) (by decide)
  exact ⟨h1.1, h1.2, h.2.2.2 "ABC 123" (by decide), by decide⟩

/-- C7: session initialization is idempotent and total.  On a fresh client
one call marks the session initialized whatever the fetch outcome — a
failed fetch is swallowed — and every later call returns the state
unchanged without performing a landing-page fetch. -/
theorem c7_session_init_idempotent (f f2 : FetchOutcome) (st : SessionState) :
    (_initialize_session freshSession f).1.session_initialized = true ∧
    (st.session_initialized = true → _initialize_session st f2 = (st, false)) ∧
    _initialize_session (_initialize_session st f).1 f2 =
      ((_initialize_session st f).1, false) := by
  refine ⟨?_, ?_, ?_⟩
  · cases f <;> simp [_initialize_session, freshSession]
  · intro h; simp [_initialize_session, h]
  · by_cases h : st.session_initialized = true
    · simp [_initialize_session, h]
    · have h' : st.session_initialized = false := by simpa using h
      cases f <;> simp [_initialize_session, h']

theorem c7_session_init_idempotent_witness :
    (_initialize_session freshSession .failed).1.session_initialized = true ∧
    _initialize_session ⟨some "tok", true⟩ .failed = (⟨some "tok", true⟩, false) := by
  have h := c7_session_init_idempotent .failed .failed ⟨some "tok", true⟩
  exact ⟨h.1, h.2.1 rfl⟩

/-! ## Option resolver (`get_manufacturers`, `get_part_groups`, `get_part_types`)

A `SelectTag` abstracts one dropdown `select` element: the ordered
`option` children, each as the pair of its `value` attribute (with the
`.get("value", "")` default already applied) and its stripped display
text.  A `PartsSearchPage` abstracts the `/en/partsearch/` page by the
four elements the client queries on it. -/

structure SelectTag where
  options : List (String × String)
deriving Repr, DecidableEq

structure PartsSearchPage where
  manufacturer_select : Option SelectTag
  partgroup_select : Option SelectTag
  parttype_select : Option SelectTag
  nck_input_value : Option String
deriving Repr, DecidableEq

/-- One dropdown entry, as in `rockauto_api.models.PartSearchOption`
(fields visible at the construction sites in `client.py`). -/
structure PartSearchOption where
  value : String
  text : String
deriving Repr, DecidableEq

/-- Common shape of `ManufacturerOptions` / `PartGroupOptions` /
`PartTypeOptions` as populated in `client.py`: the option list, its
length, and the `datetime.now().isoformat()` freshness stamp. -/
structure VocabOptions where
  options : List PartSearchOption
  count : Nat
  last_updated : String
deriving Repr, DecidableEq

/-- Enumeration of a select element's options, skipping the ones with
empty display text, as the three `for option in ...` loops do. -/
def parseOptions (sel : SelectTag) : List PartSearchOption :=
  sel.options.filterMap (fun vt => if vt.2 ≠ "" then some ⟨vt.1, vt.2⟩ else none)

/-- Common body of `get_manufacturers`, `get_part_groups` and
`get_part_types`, which differ only in the select element queried, the
message of the `ValueError` raised when it is absent, and the prefix of
the wrapping `Exception`.  Returns the result, the updated per-dropdown
cache field, and the number of HTTP requests performed. -/
def fetchVocab (selOf : PartsSearchPage → Option SelectTag)
    (wrapMsg innerMsg : String) (cache : Option VocabOptions) (use_cache : Bool)
    (fetch : Except String PartsSearchPage) (now : String) :
    Except String VocabOptions × Option VocabOptions × Nat :=
  match use_cache, cache with
  | true, some v => (.ok v, some v, 0)
  | _, _ =>
    match fetch with
    | .error e => (.error (wrapMsg ++ e), cache, 1)
    | .ok page =>
      match selOf page with
      | none => (.error (wrapMsg ++ innerMsg), cache, 1)
      | some sel =>
        let v : VocabOptions := ⟨parseOptions sel, (parseOptions sel).length, now⟩
        (.ok v, some v, 1)

/-- Embedding of `get_manufacturers`. -/
def get_manufacturers (cache : Option VocabOptions) (use_cache : Bool)
    (fetch : Except String PartsSearchPage) (now : String) :
    Except String VocabOptions × Option VocabOptions × Nat :=
  fetchVocab (fun p => p.manufacturer_select) "Failed to fetch manufacturers: "
    "Could not find manufacturer dropdown on parts search page" cache use_cache fetch now

/-- Embedding of `get_part_groups`. -/
def get_part_groups (cache : Option VocabOptions) (use_cache : Bool)
    (fetch : Except String PartsSearchPage) (now : String) :
    Except String VocabOptions × Option VocabOptions × Nat :=
  fetchVocab (fun p => p.partgroup_select) "Failed to fetch part groups: "
    "Could not find part group dropdown on parts search page" cache use_cache fetch now

/-- Embedding of `get_part_types`. -/
def get_part_types (cache : Option VocabOptions) (use_cache : Bool)
    (fetch : Except String PartsSearchPage) (now : String) :
    Except String VocabOptions × Option VocabOptions × Nat :=
  fetchVocab (fun p => p.parttype_select) "Failed to fetch part types: "
    "Could not find part type dropdown on parts search page" cache use_cache fetch now

/-- C8: on a fetched parts-search page whose expected select element is
absent, each vocabulary getter propagates an error (the wrapped
`ValueError` signalling the layout change) and in particular never
returns an empty vocabulary. -/
theorem c8_missing_select_errors (page : PartsSearchPage) (now : String) :
    (page.manufacturer_select = none →
      get_manufacturers none true (.ok page) now =
        (.error ("Failed to fetch manufacturers: " ++
          "Could not find manufacturer dropdown on parts search page"), none, 1) ∧
      ∀ v c n, get_manufacturers none true (.ok page) now ≠ (.ok v, c, n)) ∧
    (page.partgroup_select = none →
      get_part_groups none true (.ok page) now =
        (.error ("Failed to fetch part groups: " ++
          "Could not find part group dropdown on parts search page"), none, 1)) ∧
    (page.parttype_select = none →
      get_part_types none true (.ok page) now =
        (.error ("Failed to fetch part types: " ++
          "Could not find part type dropdown on parts search page"), none, 1)) := by
  refine ⟨?_, ?_, ?_⟩
  · intro h
    constructor
    · simp [get_manufacturers, fetchVocab, h]
    · intro v c n hcontra
      simp [get_manufacturers, fetchVocab, h] at hcontra
  · intro h; simp [get_part_groups, fetchVocab, h]
  · intro h; simp [get_part_types, fetchVocab, h]

/-- A parts-search page with no dropdowns but with a security token. -/
def emptyPage : PartsSearchPage :=
  { manufacturer_select := none, partgroup_select := none,
    parttype_select := none, nck_input_value := some "sec-token" }

theorem c8_missing_select_errors_witness :
    get_manufacturers none true (.ok emptyPage) "t0" =
      (.error ("Failed to fetch manufacturers: " ++
        "Could not find manufacturer dropdown on parts search page"), none, 1) ∧
    get_part_types none true (.ok emptyPage) "t0" =
      (.error ("Failed to fetch part types: " ++
        "Could not find part type dropdown on parts search page"), none, 1) := by
  have h := c8_missing_select_errors emptyPage "t0"
  exact ⟨(h.1 rfl).1, h.2.2 rfl⟩

/-! ## Search orchestrator (`search_parts_by_number`)

The embedding threads the client's three dropdown cache fields and counts
the upstream HTTP requests performed (the fresh GET of the search page,
the dropdown GETs, the search POST).  The upstream responses are injected
through `ClientEnv`.  Note that `search_parts_by_number` never reads or
writes the result cache `self._part_cache` that `__init__` creates: the
embedding therefore has no result-cache state at all. -/

/-- Type of the three vocabulary getters as used inside
`search_parts_by_number`. -/
def VocabGetter : Type :=
  Option VocabOptions → Bool → Except String PartsSearchPage → String →
    Except String VocabOptions × Option VocabOptions × Nat

/-- Modelled from the spec: `get_manufacturer_by_name`,
`get_part_group_by_name` and `get_part_type_by_name` live in
`rockauto_api.models`, outside the provided sources; the spec defines the
lookup as exact case-insensitive label match ("Lookup by case-insensitive
label match"). -/
def get_option_by_name (v : VocabOptions) (name : String) : Option PartSearchOption :=
  v.options.find? (fun o => pyLower o.text == pyLower name)

/-- One `if <filter> and <filter>.lower() != "all":` block of
`search_parts_by_number`: resolve an optional human-readable label to the
form value, fetching the vocabulary through the given getter; an absent,
falsy or `"all"` label skips the block and leaves the empty form value, an
unmatched label leaves it as well. -/
def resolveStep (filt : Option String) (getter : VocabGetter)
    (cache : Option VocabOptions) (fetch : Except String PartsSearchPage)
    (now : String) : Except String String × Option VocabOptions × Nat :=
  match filt with
  | none => (.ok "", cache, 0)
  | some f =>
    if f ≠ "" ∧ pyLower f ≠ "all" then
      match getter cache true fetch now with
      | (.error e, c1, n) => (.error e, c1, n)
      | (.ok v, c1, n) =>
        match get_option_by_name v f with
        | some o => (.ok o.value, c1, n)
        | none => (.ok "", c1, n)
    else (.ok "", cache, 0)

/-- The client's three dropdown cache fields. -/
structure DropdownCaches where
  manufacturer_cache : Option VocabOptions
  part_group_cache : Option VocabOptions
  part_type_cache : Option VocabOptions
deriving Repr, DecidableEq

/-- Cache state of a freshly constructed client. -/
def emptyCaches : DropdownCaches := ⟨none, none, none⟩

instance {ε α : Type} [DecidableEq ε] [DecidableEq α] : DecidableEq (Except ε α) :=
  fun a b =>
    match a, b with
    | .error e1, .error e2 => decidable_of_iff (e1 = e2) (by simp)
    | .error _, .ok _ => isFalse (by simp)
    | .ok _, .error _ => isFalse (by simp)
    | .ok a1, .ok a2 => decidable_of_iff (a1 = a2) (by simp)

/-- Injected upstream responses for one `search_parts_by_number` call:
the fresh GET of the search page, the GET backing a dropdown fetch, and
the search POST with its result document abstracted to the listing
containers found in it. -/
structure ClientEnv where
  searchPage : Except String PartsSearchPage
  vocabPage : Except String PartsSearchPage
  postResult : Except String (List Row)
  now : String
deriving Repr, DecidableEq

/-- The `PartSearchResult` fields populated at the end of
`search_parts_by_number`. -/
structure PartSearchResult where
  parts : List PartInfo
  count : Nat
  search_term : String
  manufacturer : String
  part_group : String
deriving Repr, DecidableEq

/-- Python `x or "All"` on an optional string. -/
def pyOrAll (s : Option String) : String :=
  match s with
  | none => "All"
  | some v => if v = "" then "All" else v

/-- The search form as filled by `search_parts_by_number` (the constant
`dopartsearch`/`Search` markers are omitted). -/
structure FormData where
  nck : String
  partnum : String
  manufacturer_value : String
  partgroup_value : String
  parttype_value : String
  partname : String
deriving Repr, DecidableEq

/-- Result of one `search_parts_by_number` call: the returned value or
wrapped error, the updated dropdown caches, the number of upstream HTTP
requests performed, and the form that was POSTed (`none` when the call
failed before reaching the POST). -/
structure RunOut where
  result : Except String PartSearchResult
  caches : DropdownCaches
  requests : Nat
  form : Option FormData
deriving Repr, DecidableEq

/-- Embedding of `search_parts_by_number`: GET the search page fresh,
extract the per-request `_nck` security token, resolve the three filter
labels, POST the form, parse the listing containers of the response, and
wrap any exception of these steps into the single
`Exception(f"Failed to search parts: ...")` failure kind. -/
def searchRun (env : ClientEnv) (c : DropdownCaches) (part_number : String)
    (manufacturer part_group part_type part_name : Option String) : RunOut :=
  match env.searchPage with
  | .error e => ⟨.error ("Failed to search parts: " ++ e), c, 1, none⟩
  | .ok page =>
    match page.nck_input_value with
    | none =>
      ⟨.error ("Failed to search parts: " ++
        "Could not find security token on parts search page"), c, 1, none⟩
    | some security_token =>
      match resolveStep manufacturer get_manufacturers c.manufacturer_cache
          env.vocabPage env.now with
      | (.error e, mc, n1) =>
        ⟨.error ("Failed to search parts: " ++ e),
          ⟨mc, c.part_group_cache, c.part_type_cache⟩, 1 + n1, none⟩
      | (.ok manufacturer_value, mc, n1) =>
        match resolveStep part_group get_part_groups c.part_group_cache
            env.vocabPage env.now with
        | (.error e, gc, n2) =>
          ⟨.error ("Failed to search parts: " ++ e),
            ⟨mc, gc, c.part_type_cache⟩, 1 + n1 + n2, none⟩
        | (.ok partgroup_value, gc, n2) =>
          match resolveStep part_type get_part_types c.part_type_cache
              env.vocabPage env.now with
          | (.error e, tc, n3) =>
            ⟨.error ("Failed to search parts: " ++ e), ⟨mc, gc, tc⟩, 1 + n1 + n2 + n3, none⟩
          | (.ok parttype_value, tc, n3) =>
            let form : FormData :=
              ⟨security_token, part_number, manufacturer_value,
                partgroup_value, parttype_value, part_name.getD ""⟩
            match env.postResult with
            | .error e =>
              ⟨.error ("Failed to search parts: " ++ e), ⟨mc, gc, tc⟩,
                1 + n1 + n2 + n3 + 1, some form⟩
            | .ok rows =>
              let parts := _parse_parts_search_results rows
              ⟨.ok { parts := parts, count := parts.length, search_term := part_number,
                     manufacturer := pyOrAll manufacturer, part_group := pyOrAll part_group },
                ⟨mc, gc, tc⟩, 1 + n1 + n2 + n3 + 1, some form⟩

/-- The value returned (or exception raised) by `search_parts_by_number`. -/
def search_parts_by_number (env : ClientEnv) (c : DropdownCaches)
    (part_number : String) (manufacturer part_group part_type part_name : Option String) :
    Except String PartSearchResult :=
  (searchRun env c part_number manufacturer part_group part_type part_name).result

theorem get_option_by_name_none (v : VocabOptions) (f : String)
    (h : ∀ o ∈ v.options, pyLower o.text ≠ pyLower f) :
    get_option_by_name v f = none := by
  rw [get_option_by_name]
  exact List.find?_eq_none.mpr (fun o ho => by simpa using h o ho)

/-- C5: filter-label resolution.  An absent label, an empty (falsy) label,
or a label case-insensitively equal to `"all"` yields the empty form value
without touching the vocabulary; a label matching no vocabulary entry
under exact case-insensitive comparison also yields the empty form value;
and a search whose manufacturer filter was dropped that way still
completes with a full result instead of failing. -/
theorem c5_label_resolution :
    (∀ (getter : VocabGetter) cache fetch now,
      resolveStep none getter cache fetch now = (.ok "", cache, 0)) ∧
    (∀ (getter : VocabGetter) cache fetch now,
      resolveStep (some "") getter cache fetch now = (.ok "", cache, 0)) ∧
    (∀ (getter : VocabGetter) cache fetch now (f : String), pyLower f = "all" →
      resolveStep (some f) getter cache fetch now = (.ok "", cache, 0)) ∧
    (∀ (getter : VocabGetter) cache fetch now (f : String) v c1 n,
      f ≠ "" → pyLower f ≠ "all" →
      getter cache true fetch now = (.ok v, c1, n) →
      (∀ o ∈ v.options, pyLower o.text ≠ pyLower f) →
      resolveStep (some f) getter cache fetch now = (.ok "", c1, n)) ∧
    (∀ (env : ClientEnv) (c : DropdownCaches) (pn f : String) page tok rows v c1 n,
      env.searchPage = .ok page → page.nck_input_value = some tok →
      env.postResult = .ok rows →
      f ≠ "" → pyLower f ≠ "all" →
      get_manufacturers c.manufacturer_cache true env.vocabPage env.now = (.ok v, c1, n) →
      (∀ o ∈ v.options, pyLower o.text ≠ pyLower f) →
      (searchRun env c pn (some f) none none none).result =
        .ok ⟨_parse_parts_search_results rows,
          (_parse_parts_search_results rows).length, pn, f, "All"⟩) := by
  refine ⟨fun getter cache fetch now => rfl, ?_, ?_, ?_, ?_⟩
  · intro getter cache fetch now
    simp [resolveStep]
  · intro getter cache fetch now f h
    simp [resolveStep, h]
  · intro getter cache fetch now f v c1 n hne hall hget hno
    simp [resolveStep, hne, hall, hget, get_option_by_name_none v f hno]
  · intro env c pn f page tok rows v c1 n hsp hni hpost hne hall hget hno
    have hres : resolveStep (some f) get_manufacturers c.manufacturer_cache
        env.vocabPage env.now = (.ok "", c1, n) := by
      simp [resolveStep, hne, hall, hget, get_option_by_name_none v f hno]
    have h0g : resolveStep none get_part_groups c.part_group_cache
        env.vocabPage env.now = (.ok "", c.part_group_cache, 0) := rfl
    have h0t : resolveStep none get_part_types c.part_type_cache
        env.vocabPage env.now = (.ok "", c.part_type_cache, 0) := rfl
    simp [searchRun, hsp, hni, hres, h0g, h0t, hpost, pyOrAll, hne]

/-- A vocabulary page carrying a one-entry manufacturer dropdown. -/
def demoVocabPage : PartsSearchPage :=
  { manufacturer_select := some ⟨[("m1", "ACME")]⟩, partgroup_select := none,
    parttype_select := none, nck_input_value := some "sec-token" }

theorem c5_label_resolution_witness :
    resolveStep none get_manufacturers none (.ok demoVocabPage) "t0" = (.ok "", none, 0) ∧
    resolveStep (some "ALL") get_manufacturers none (.ok demoVocabPage) "t0" =
      (.ok "", none, 0) ∧
    resolveStep (some "Bosch") get_manufacturers none (.ok demoVocabPage) "t0" =
      (.ok "", some ⟨[⟨"m1", "ACME"⟩], 1, "t0"⟩, 1) := by
  have h := c5_label_resolution
  refine ⟨h.1 get_manufacturers none (.ok demoVocabPage) "t0",
    h.2.2.1 get_manufacturers none (.ok demoVocabPage) "t0" "ALL" (by decide),
    h.2.2.2.1 get_manufacturers none (.ok demoVocabPage) "t0" "Bosch"
      ⟨[⟨"m1", "ACME"⟩], 1, "t0"⟩ (some ⟨[⟨"m1", "ACME"⟩], 1, "t0"⟩) 1
      (by decide) (by decide) (by decide) (by decide)⟩

/-- C4: a `search_parts_by_number` call either returns a complete
`PartSearchResult` whose count equals the number of its parts, or fails
with the single wrapping failure kind whose message is
`"Failed to search parts: "` followed by the original cause; the cause is
carried for a failing initial GET and for a failing POST. -/
theorem c4_single_failure_kind (env : ClientEnv) (c : DropdownCaches)
    (pn : String) (m g t nm : Option String) :
    ((∃ r, search_parts_by_number env c pn m g t nm = .ok r ∧
        r.count = r.parts.length) ∨
      (∃ cause, search_parts_by_number env c pn m g t nm =
        .error ("Failed to search parts: " ++ cause))) ∧
    (∀ e, env.searchPage = .error e →
      search_parts_by_number env c pn m g t nm =
        .error ("Failed to search parts: " ++ e)) ∧
    (∀ e page tok, env.searchPage = .ok page → page.nck_input_value = some tok →
      m = none → g = none → t = none → env.postResult = .error e →
      search_parts_by_number env c pn m g t nm =
        .error ("Failed to search parts: " ++ e)) := by
  refine ⟨?_, ?_, ?_⟩
  · rcases hsp : env.searchPage with e | page
    · exact Or.inr ⟨e, by simp [search_parts_by_number, searchRun, hsp]⟩
    · rcases hni : page.nck_input_value with _ | tok
      · exact Or.inr ⟨"Could not find security token on parts search page",
          by simp [search_parts_by_number, searchRun, hsp, hni]⟩
      · rcases hm : resolveStep m get_manufacturers c.manufacturer_cache
            env.vocabPage env.now with ⟨rm, mc, n1⟩
        rcases rm with e | mval
        · exact Or.inr ⟨e, by simp [search_parts_by_number, searchRun, hsp, hni, hm]⟩
        · rcases hg : resolveStep g get_part_groups c.part_group_cache
              env.vocabPage env.now with ⟨rg, gc, n2⟩
          rcases rg with e | gval
          · exact Or.inr ⟨e, by simp [search_parts_by_number, searchRun, hsp, hni, hm, hg]⟩
          · rcases ht : resolveStep t get_part_types c.part_type_cache
                env.vocabPage env.now with ⟨rt, tc, n3⟩
            rcases rt with e | tval
            · exact Or.inr ⟨e,
                by simp [search_parts_by_number, searchRun, hsp, hni, hm, hg, ht]⟩
            · rcases hpost : env.postResult with e | rows
              · exact Or.inr ⟨e,
                  by simp [search_parts_by_number, searchRun, hsp, hni, hm, hg, ht, hpost]⟩
              · refine Or.inl ⟨⟨_parse_parts_search_results rows,
                    (_parse_parts_search_results rows).length, pn,
                    pyOrAll m, pyOrAll g⟩, ?_, rfl⟩
                simp [search_parts_by_number, searchRun, hsp, hni, hm, hg, ht, hpost]
  · intro e hsp
    simp [search_parts_by_number, searchRun, hsp]
  · intro e page tok hsp hni hm hg ht hpost
    subst hm; subst hg; subst ht
    simp [search_parts_by_number, searchRun, hsp, hni, hpost, resolveStep]

/-- Environment whose initial GET fails. -/
def failingEnv : ClientEnv :=
  { searchPage := .error "boom", vocabPage := .error "boom",
    postResult := .error "boom", now := "t0" }

theorem c4_single_failure_kind_witness :
    search_parts_by_number failingEnv emptyCaches "12345" none none none none =
      .error ("Failed to search parts: " ++ "boom") :=
  (c4_single_failure_kind failingEnv emptyCaches "12345" none none none none).2.1
    "boom" rfl

/-! ## Result cache (claim C1)

`__init__` documents `search_cache_hours` as "Hours to cache search
results" and `max_cached_searches` as "Maximum number of search results to
cache", and builds `self._part_cache = self.cache_config.create_cache()`
when caching is enabled — but `search_parts_by_number` never reads or
writes `self._part_cache`: no statement of its body (lines 329–430 of
`client.py`) mentions a cache.  Accordingly `searchRun` has no result-cache
state, and a repeated identical query re-runs the full network cycle. -/

/-- A successful environment: search page with a token, one listing row. -/
def demoEnv : ClientEnv :=
  { searchPage := .ok demoVocabPage, vocabPage := .ok demoVocabPage,
    postResult := .ok [demoRow], now := "2026-01-01T00:00:00" }

/-- C1 evidence: with caching enabled (the client's default), the first
filterless search performs 2 upstream requests (GET + POST) and a second,
identical search issued immediately afterwards — well within any TTL —
again performs 2 upstream requests instead of being served from a result
cache, although both calls return field-for-field equal values.  This
exhibits the code bug behind claim C1: the result cache configured in
`__init__` is never consulted by `search_parts_by_number`. -/
theorem c1_second_search_hits_network :
    (searchRun demoEnv emptyCaches "12345" none none none none).requests = 2 ∧
    (searchRun demoEnv
        (searchRun demoEnv emptyCaches "12345" none none none none).caches
        "12345" none none none none).requests = 2 ∧
    (searchRun demoEnv
        (searchRun demoEnv emptyCaches "12345" none none none none).caches
        "12345" none none none none).result =
      (searchRun demoEnv emptyCaches "12345" none none none none).result ∧
    (searchRun demoEnv emptyCaches "12345" none none none none).result =
      .ok ⟨[extractTotal demoRow], 1, "12345", "All", "All"⟩ := by
  decide

/-! ## App layer (`app/utils/exchanger.py`, `app/utils/rockauto.py`,
`app/api/search.py`) -/

/-- Outcome of `usd_to_gel`: the returned value (`None` when the function
falls through both branches) and whether an HTTP request to the
exchange-rate API was made. -/
structure ExchangeOutcome where
  value : Option ℚ
  network : Bool
deriving Repr, DecidableEq

/-- Embedding of `usd_to_gel`.  The remote conversion (float parse of the
cleaned amount, GET to the exchange-rate API, extraction of `['result']`)
is injected as the total oracles `convEUR` / `convUSD` applied to the
cleaned numeral string; floats are modelled as rationals.  A price
containing `'€'` converts from EUR, else one containing `'$'` converts
from USD, else the function falls through and returns `None` without any
request. -/
def usd_to_gel (convEUR convUSD : String → ℚ) (amount : String) : ExchangeOutcome :=
  if pyContainsChar amount '€' then
    ⟨some (convEUR (pyStrip (pyReplace amount "€" ""))), true⟩
  else if pyContainsChar amount '$' then
    ⟨some (convUSD (pyStrip (pyReplace amount "$" ""))), true⟩
  else
    ⟨none, false⟩

/-- One offer dict as built in `find_parts_by_oem_and_make_name`
(`sys_info`, a constant empty dict, is carried as its JSON text). -/
structure OfferObj where
  oem : Option String
  make_name : String
  detail_name : String
  cost : Option ℚ
  qnt : Nat
  min_delivery_day : Nat
  max_delivery_day : Nat
  min_qnt : Nat
  sup_logo : String
  stat_group : Nat
  system_hash : String
  weight : ℚ
  volume : ℚ
  sys_info : String
deriving Repr, DecidableEq

/-- Embedding of `find_parts_by_oem_and_make_name`: a fresh client
(`async with RockAutoClient()`, hence empty dropdown caches) searches for
`text + oem` with `make_name` as manufacturer filter, and each returned
part is mapped to an offer dict; default arguments mirror the Python
signature (`make_name: str = ''`, `text: str = ''`).  An exception from
the search propagates. -/
def find_parts_by_oem_and_make_name (env : ClientEnv) (convEUR convUSD : String → ℚ)
    (oem : String) (make_name : String := "") (text : String := "") :
    Except String (List OfferObj) :=
  match search_parts_by_number env emptyCaches (text ++ oem)
      (some make_name) none none none with
  | .error e => .error e
  | .ok res => .ok (res.parts.map (fun i =>
      ⟨i.part_number, i.brand, i.name, (usd_to_gel convEUR convUSD i.price).value,
        25, 0, 0, 2, "ROCKAUTO", 0, "", 0, 0, "\x7b\x7d"⟩))

/-- The `OffersResponse` wire shape populated by the handler. -/
structure OffersResponse where
  result : String
  data : List OfferObj
deriving Repr, DecidableEq

/-- Embedding of the GET handler `get_offers_by_oem_and_make_name` in
`app/api/search.py` (the API-key check precedes the body and is orthogonal
to it): the body runs `find_parts_by_oem_and_make_name(oem)` with every
other argument left at its default, so the handler's own `make_name`,
`without_cross` and `text` query parameters are never read. -/
def get_offers_by_oem_and_make_name (env : ClientEnv) (convEUR convUSD : String → ℚ)
    (oem : String) (make_name : Option String) (without_cross : Option Bool)
    (text : Option String) : Except String OffersResponse :=
  match find_parts_by_oem_and_make_name env convEUR convUSD oem with
  | .error e => .error e
  | .ok data => .ok ⟨"ok", data⟩

/-- C9: the offers endpoint's response is independent of the `make_name`,
`without_cross` and `text` query parameters — two requests differing only
in them yield the same result against the same upstream — because the
handler invokes the search with the oem alone: the defaulted call equals
`find_parts(oem, "", "")`, an empty manufacturer filter behaves exactly
like no filter inside `search_parts_by_number`, and the empty text
prefixes nothing. -/
theorem c9_offers_ignore_query_params (env : ClientEnv) (convEUR convUSD : String → ℚ)
    (oem : String) (m1 m2 t1 t2 : Option String) (w1 w2 : Option Bool) :
    get_offers_by_oem_and_make_name env convEUR convUSD oem m1 w1 t1 =
      get_offers_by_oem_and_make_name env convEUR convUSD oem m2 w2 t2 ∧
    find_parts_by_oem_and_make_name env convEUR convUSD oem =
      find_parts_by_oem_and_make_name env convEUR convUSD oem "" "" ∧
    searchRun env emptyCaches oem (some "") none none none =
      searchRun env emptyCaches oem none none none none ∧
    ("" ++ oem : String) = oem := by
  refine ⟨rfl, rfl, ?_, rfl⟩
  rcases hsp : env.searchPage with e | page
  · simp [searchRun, hsp]
  · rcases hni : page.nck_input_value with _ | tok
    · simp [searchRun, hsp, hni]
    · have h1 : resolveStep (some "") get_manufacturers emptyCaches.manufacturer_cache
          env.vocabPage env.now = (.ok "", emptyCaches.manufacturer_cache, 0) := rfl
      have h2 : resolveStep none get_manufacturers emptyCaches.manufacturer_cache
          env.vocabPage env.now = (.ok "", emptyCaches.manufacturer_cache, 0) := rfl
      rcases hpost : env.postResult with e | rows <;>
        simp [searchRun, hsp, hni, h1, h2, hpost, pyOrAll]

theorem c9_offers_ignore_query_params_witness :
    get_offers_by_oem_and_make_name demoEnv (fun _ => 0) (fun _ => 0) "W123"
      (some "ACME") (some true) (some "pre") =
    get_offers_by_oem_and_make_name demoEnv (fun _ => 0) (fun _ => 0) "W123"
      none none none :=
  (c9_offers_ignore_query_params demoEnv (fun _ => 0) (fun _ => 0) "W123"
    (some "ACME") none (some "pre") none (some true) none).1

/-- C10: a price string containing neither `'€'` nor `'$'` — in
particular the extractor's default price `"0"` for a row whose price
element is missing — makes `usd_to_gel` return `None` without performing
any network request. -/
theorem c10_no_symbol_no_conversion (convEUR convUSD : String → ℚ) :
    (∀ s : String, pyContainsChar s '€' = false → pyContainsChar s '$' = false →
      usd_to_gel convEUR convUSD s = ⟨none, false⟩) ∧
    usd_to_gel convEUR convUSD "0" = ⟨none, false⟩ ∧
    (∀ r : Row, r.price_text = none →
      usd_to_gel convEUR convUSD (extractTotal r).price = ⟨none, false⟩) := by
  refine ⟨?_, rfl, ?_⟩
  · intro s h1 h2
    simp [usd_to_gel, h1, h2]
  · intro r h
    have hp : (extractTotal r).price = "0" := by simp [extractTotal, h]
    rw [hp]
    rfl

theorem c10_no_symbol_no_conversion_witness :
    usd_to_gel (fun _ => 0) (fun _ => 0) "0" = ⟨none, false⟩ ∧
    usd_to_gel (fun _ => 0) (fun _ => 0) (extractTotal bareRow).price = ⟨none, false⟩ := by
  have h := c10_no_symbol_no_conversion (fun _ => 0) (fun _ => 0)
  exact ⟨h.1 "0" rfl rfl, h.2.2 bareRow rfl⟩

end RockAuto
